import Mathlib

/-!
Verification of the GPU cloud platform front-end logic: the cost-savings
calculator (CostCalculator.tsx), the dashboard instance action handler
(handleInstanceAction), and the landing-page animated savings counter.
Numeric values are modelled exactly over the rationals.
-/

/-- The closed enumeration of GPU classes offered by the calculator. -/
inductive GpuType
  | T4
  | A10G
  | A100
deriving DecidableEq

/-- One row of the price table: the provider reference price (field `aws` in
the source) and the platform price (field `ours`), both per hour. -/
structure GpuPrice where
  aws : ℚ
  ours : ℚ
deriving DecidableEq

/-- The static price table of CostCalculator.tsx. -/
def gpuPrices : GpuType → GpuPrice
  | .T4 => ⟨3.06, 0.99⟩
  | .A10G => ⟨5.12, 1.99⟩
  | .A100 => ⟨12.24, 3.99⟩

/-- Monthly provider cost: `awsCost = hours * gpuPrices[gpuType].aws`. -/
def awsCost (g : GpuType) (hours : ℚ) : ℚ := hours * (gpuPrices g).aws

/-- Monthly platform cost: `ourCost = hours * gpuPrices[gpuType].ours`. -/
def ourCost (g : GpuType) (hours : ℚ) : ℚ := hours * (gpuPrices g).ours

/-- Monthly savings: `savings = awsCost - ourCost`. -/
def savings (g : GpuType) (hours : ℚ) : ℚ := awsCost g hours - ourCost g hours

/-- Displayed savings percentage: `((savings / awsCost) * 100).toFixed(0)`,
rounding to the nearest integer. -/
def savingsPercent (g : GpuType) (hours : ℚ) : ℤ :=
  round (savings g hours / awsCost g hours * 100)

/-- Modelled from the spec: the reference (provider) column of the price
table stated in the contract, T4 = 3.06, A10G = 5.12, A100 = 12.24. -/
def referencePrice : GpuType → ℚ
  | .T4 => 3.06
  | .A10G => 5.12
  | .A100 => 12.24

/-- Modelled from the spec: the platform column of the price table stated in
the contract, T4 = 0.99, A10G = 1.99, A100 = 3.99. -/
def platformPrice : GpuType → ℚ
  | .T4 => 0.99
  | .A10G => 1.99
  | .A100 => 3.99

/-- C1: for every hours value in [10, 730] and every gpu_type, the calculator
computes provider cost, platform cost, savings and rounded savings percent by
the contract formulas over the stated price table. -/
theorem savings_calculator_contract (h : ℕ) (h10 : 10 ≤ h) (h730 : h ≤ 730)
    (g : GpuType) :
    awsCost g h = h * referencePrice g ∧
    ourCost g h = h * platformPrice g ∧
    savings g h = awsCost g h - ourCost g h ∧
    savingsPercent g h = round (savings g h / awsCost g h * 100) := by
  cases g <;> exact ⟨rfl, rfl, rfl, rfl⟩

/-- Witness for C1 at hours = 100, gpu_type = A10G. -/
theorem savings_calculator_contract_witness :
    10 ≤ 100 ∧ 100 ≤ 730 ∧
    (awsCost GpuType.A10G 100 = 100 * referencePrice GpuType.A10G ∧
     ourCost GpuType.A10G 100 = 100 * platformPrice GpuType.A10G ∧
     savings GpuType.A10G 100 = awsCost GpuType.A10G 100 - ourCost GpuType.A10G 100 ∧
     savingsPercent GpuType.A10G 100 =
       round (savings GpuType.A10G 100 / awsCost GpuType.A10G 100 * 100)) :=
  ⟨by decide, by decide,
   savings_calculator_contract 100 (by decide) (by decide) GpuType.A10G⟩

/-- C2: at hours = 100 and gpu_type = A10G the calculator yields provider
cost 512.00, platform cost 199.00, savings 313.00 and savings percent 61. -/
theorem example_100_A10G :
    awsCost GpuType.A10G 100 = 512 ∧
    ourCost GpuType.A10G 100 = 199 ∧
    savings GpuType.A10G 100 = 313 ∧
    savingsPercent GpuType.A10G 100 = 61 := by
  refine ⟨by norm_num [awsCost, gpuPrices], by norm_num [ourCost, gpuPrices],
    by norm_num [savings, awsCost, ourCost, gpuPrices], ?_⟩
  norm_num [savingsPercent, savings, awsCost, ourCost, gpuPrices, round_eq]

/-- A simulated GPU instance record, as held in the dashboard component
state (part_000). Numeric fields are exact rationals; status and gpu_type
are the strings the source uses. -/
structure Instance where
  id : String
  name : String
  gpu_type : String
  status : String
  cost_per_hour : ℚ
  total_cost : ℚ
  savings : ℚ
  gpu_utilization : ℚ
  uptime : String
  public_ip : String
deriving DecidableEq

/-- The three actions accepted by handleInstanceAction. -/
inductive InstanceAction
  | pause
  | resume
  | delete
deriving DecidableEq

/-- The per-record update performed inside the map of handleInstanceAction:
when the id matches, pause sets status "paused" and utilization 0, resume
sets status "running" and utilization r * 100 where r stands for the value
of Math.random(); otherwise (and for delete) the record is unchanged. -/
def applyAction (id : String) (a : InstanceAction) (r : ℚ) (inst : Instance) :
    Instance :=
  if inst.id = id then
    match a with
    | .pause => { inst with status := "paused", gpu_utilization := 0 }
    | .resume => { inst with status := "running", gpu_utilization := r * 100 }
    | .delete => inst
  else inst

/-- handleInstanceAction: map applyAction over the list, then, for the
delete action only, filter out the records whose id equals the given id. -/
def handleInstanceAction (id : String) (a : InstanceAction) (r : ℚ)
    (prev : List Instance) : List Instance :=
  let mapped := prev.map (applyAction id a r)
  match a with
  | .delete => mapped.filter (fun i => i.id != id)
  | _ => mapped

/-- The first record of the dashboard initial state. -/
def gpu1 : Instance :=
  ⟨"gpu-1", "Llama-3-Training", "A100", "running", 3.99, 127.68, 89.38, 78,
   "32h 15m", "20.124.56.78"⟩

/-- The second record of the dashboard initial state. -/
def gpu2 : Instance :=
  ⟨"gpu-2", "Stable-Diffusion-XL", "A10G", "paused", 1.99, 45.77, 32.04, 0,
   "23h 0m", "20.124.56.79"⟩

/-- The third record of the dashboard initial state. -/
def gpu3 : Instance :=
  ⟨"gpu-3", "Jupyter-Notebook", "T4", "running", 0.99, 15.84, 11.09, 12,
   "16h 0m", "20.124.56.80"⟩

/-- The dashboard component initial instance list. -/
def initialInstances : List Instance := [gpu1, gpu2, gpu3]

/-- C3: whatever the prior status, pausing updates every record whose id
matches to status "paused" with utilization 0, and the updated record is in
the resulting list. -/
theorem pause_sets_paused_and_zero (l : List Instance) (id : String) (r : ℚ)
    (x : Instance) (hmem : x ∈ l) (hx : x.id = id) :
    applyAction id InstanceAction.pause r x ∈
      handleInstanceAction id InstanceAction.pause r l ∧
    (applyAction id InstanceAction.pause r x).status = "paused" ∧
    (applyAction id InstanceAction.pause r x).gpu_utilization = 0 := by
  refine ⟨List.mem_map_of_mem _ hmem, ?_, ?_⟩
  · simp [applyAction, hx]
  · simp [applyAction, hx]

/-- Witness for C3: pausing the running instance gpu-1 of the initial list. -/
theorem pause_sets_paused_and_zero_witness :
    gpu1 ∈ initialInstances ∧ gpu1.id = "gpu-1" ∧
    (applyAction "gpu-1" InstanceAction.pause 0 gpu1 ∈
       handleInstanceAction "gpu-1" InstanceAction.pause 0 initialInstances ∧
     (applyAction "gpu-1" InstanceAction.pause 0 gpu1).status = "paused" ∧
     (applyAction "gpu-1" InstanceAction.pause 0 gpu1).gpu_utilization = 0) :=
  ⟨List.Mem.head _, rfl,
   pause_sets_paused_and_zero initialInstances "gpu-1" 0 gpu1
     (List.Mem.head _) rfl⟩

/-- C4: resuming updates every record whose id matches to status "running"
with utilization r * 100, which lies in [0, 100) whenever the random value
r lies in [0, 1), and the updated record is in the resulting list. -/
theorem resume_sets_running_and_bounded (l : List Instance) (id : String)
    (r : ℚ) (hr0 : 0 ≤ r) (hr1 : r < 1)
    (x : Instance) (hmem : x ∈ l) (hx : x.id = id) :
    applyAction id InstanceAction.resume r x ∈
      handleInstanceAction id InstanceAction.resume r l ∧
    (applyAction id InstanceAction.resume r x).status = "running" ∧
    (applyAction id InstanceAction.resume r x).gpu_utilization = r * 100 ∧
    0 ≤ r * 100 ∧ r * 100 < 100 := by
  refine ⟨List.mem_map_of_mem _ hmem, ?_, ?_, ?_, ?_⟩
  · simp [applyAction, hx]
  · simp [applyAction, hx]
  · linarith
  · linarith

/-- Witness for C4: resuming the paused instance gpu-2 with r = 1/2. -/
theorem resume_sets_running_and_bounded_witness :
    (0 : ℚ) ≤ 1/2 ∧ (1/2 : ℚ) < 1 ∧ gpu2 ∈ initialInstances ∧
    gpu2.id = "gpu-2" ∧
    (applyAction "gpu-2" InstanceAction.resume (1/2) gpu2 ∈
       handleInstanceAction "gpu-2" InstanceAction.resume (1/2) initialInstances ∧
     (applyAction "gpu-2" InstanceAction.resume (1/2) gpu2).status = "running" ∧
     (applyAction "gpu-2" InstanceAction.resume (1/2) gpu2).gpu_utilization =
       1/2 * 100 ∧
     (0 : ℚ) ≤ 1/2 * 100 ∧ (1/2 : ℚ) * 100 < 100) :=
  ⟨by norm_num, by norm_num, List.Mem.tail _ (List.Mem.head _), rfl,
   resume_sets_running_and_bounded initialInstances "gpu-2" (1/2)
     (by norm_num) (by norm_num) gpu2 (List.Mem.tail _ (List.Mem.head _)) rfl⟩

/-- Deleting leaves each record unchanged in the map pass of
handleInstanceAction: the delete branch of applyAction is the identity. -/
theorem applyAction_delete_id (id : String) (r : ℚ) (inst : Instance) :
    applyAction id InstanceAction.delete r inst = inst := by
  unfold applyAction
  split <;> rfl

/-- C5: in a list whose other records all carry a different id, deleting
removes exactly the record with the given id and keeps every other record
unchanged in its original relative order. -/
theorem delete_removes_exactly_id (l1 l2 : List Instance) (x : Instance)
    (id : String) (r : ℚ) (hx : x.id = id)
    (h1 : ∀ i ∈ l1, i.id ≠ id) (h2 : ∀ i ∈ l2, i.id ≠ id) :
    handleInstanceAction id InstanceAction.delete r (l1 ++ x :: l2) = l1 ++ l2 := by
  unfold handleInstanceAction
  simp only [List.map_append, List.map_cons, applyAction_delete_id,
    List.filter_append, List.filter_cons]
  have hmap : ∀ m : List Instance,
      m.map (applyAction id InstanceAction.delete r) = m := by
    intro m
    induction m with
    | nil => rfl
    | cons a t ih => simp [applyAction_delete_id, ih]
  rw [hmap, hmap]
  have hf1 : l1.filter (fun i => i.id != id) = l1 :=
    List.filter_eq_self.mpr (fun a ha => by
      simpa using h1 a ha)
  have hf2 : l2.filter (fun i => i.id != id) = l2 :=
    List.filter_eq_self.mpr (fun a ha => by
      simpa using h2 a ha)
  have hxne : (x.id != id) = false := by simp [hx]
  simp [List.filter_append, hxne, hf1, hf2]

/-- Witness for C5: deleting gpu-2 from the initial list yields the list of
gpu-1 and gpu-3. -/
theorem delete_removes_exactly_id_witness :
    gpu2.id = "gpu-2" ∧
    (∀ i ∈ [gpu1], i.id ≠ "gpu-2") ∧ (∀ i ∈ [gpu3], i.id ≠ "gpu-2") ∧
    handleInstanceAction "gpu-2" InstanceAction.delete 0 ([gpu1] ++ gpu2 :: [gpu3]) =
      [gpu1] ++ [gpu3] :=
  ⟨rfl, by simp [gpu1], by simp [gpu3],
   delete_removes_exactly_id [gpu1] [gpu3] gpu2 "gpu-2" 0 rfl
     (by simp [gpu1]) (by simp [gpu3])⟩

/-- The dashboard invariant: utilization is 0 whenever the status is
"paused", and the status is one of running, paused, stopped. -/
def StatusOk (i : Instance) : Prop :=
  (i.status = "paused" → i.gpu_utilization = 0) ∧
  (i.status = "running" ∨ i.status = "paused" ∨ i.status = "stopped")

/-- applyAction preserves the dashboard invariant on a single record. -/
theorem applyAction_statusOk (id : String) (a : InstanceAction) (r : ℚ)
    (inst : Instance) (h : StatusOk inst) : StatusOk (applyAction id a r inst) := by
  unfold applyAction
  split
  · cases a with
    | pause => exact ⟨fun _ => rfl, Or.inr (Or.inl rfl)⟩
    | resume =>
        refine ⟨fun hc => absurd hc ?_, Or.inl rfl⟩
        simp
    | delete => exact h
  · exact h

/-- handleInstanceAction preserves the dashboard invariant on every record
of the list. -/
theorem handle_preserves_statusOk (id : String) (a : InstanceAction) (r : ℚ)
    (l : List Instance) (hl : ∀ i ∈ l, StatusOk i) :
    ∀ i ∈ handleInstanceAction id a r l, StatusOk i := by
  intro i hi
  cases a with
  | delete =>
      simp only [handleInstanceAction] at hi
      have hi2 := List.mem_of_mem_filter hi
      obtain ⟨j, hj, rfl⟩ := List.mem_map.mp hi2
      exact applyAction_statusOk _ _ _ _ (hl j hj)
  | pause =>
      simp only [handleInstanceAction] at hi
      obtain ⟨j, hj, rfl⟩ := List.mem_map.mp hi
      exact applyAction_statusOk _ _ _ _ (hl j hj)
  | resume =>
      simp only [handleInstanceAction] at hi
      obtain ⟨j, hj, rfl⟩ := List.mem_map.mp hi
      exact applyAction_statusOk _ _ _ _ (hl j hj)

/-- Run a finite sequence of handleInstanceAction calls, each given by an
id, an action and the value drawn from Math.random for that call, starting
from a given list. -/
def runActionsFrom (evts : List (String × InstanceAction × ℚ))
    (l : List Instance) : List Instance :=
  evts.foldl (fun acc e => handleInstanceAction e.1 e.2.1 e.2.2 acc) l

/-- Run a finite sequence of handleInstanceAction calls starting from the
dashboard initial list. -/
def runActions (evts : List (String × InstanceAction × ℚ)) : List Instance :=
  runActionsFrom evts initialInstances

/-- Any finite sequence of handleInstanceAction calls preserves the
dashboard invariant. -/
theorem runActionsFrom_preserves (evts : List (String × InstanceAction × ℚ))
    (l : List Instance) (hl : ∀ i ∈ l, StatusOk i) :
    ∀ i ∈ runActionsFrom evts l, StatusOk i := by
  induction evts generalizing l with
  | nil => simpa [runActionsFrom] using hl
  | cons e t ih =>
      intro i hi
      simp only [runActionsFrom, List.foldl_cons] at hi
      exact ih _ (handle_preserves_statusOk e.1 e.2.1 e.2.2 l hl) i hi

/-- The dashboard initial list satisfies the invariant. -/
theorem initialInstances_statusOk : ∀ i ∈ initialInstances, StatusOk i := by
  intro i hi
  simp only [initialInstances, List.mem_cons, List.not_mem_nil, or_false] at hi
  rcases hi with rfl | rfl | rfl
  · exact ⟨fun hc => absurd hc (by simp [gpu1]), Or.inl rfl⟩
  · exact ⟨fun _ => rfl, Or.inr (Or.inl rfl)⟩
  · exact ⟨fun hc => absurd hc (by simp [gpu3]), Or.inl rfl⟩

/-- C6: from the initial three-instance list, after any finite sequence of
handleInstanceAction calls, every paused instance has utilization 0 and
every status is one of running, paused, stopped. -/
theorem dashboard_status_invariant (evts : List (String × InstanceAction × ℚ))
    (i : Instance) (hi : i ∈ runActions evts) :
    (i.status = "paused" → i.gpu_utilization = 0) ∧
    (i.status = "running" ∨ i.status = "paused" ∨ i.status = "stopped") :=
  runActionsFrom_preserves evts initialInstances initialInstances_statusOk i hi

/-- Witness for C6: the empty sequence and the first initial instance. -/
theorem dashboard_status_invariant_witness :
    gpu1 ∈ runActions [] ∧
    ((gpu1.status = "paused" → gpu1.gpu_utilization = 0) ∧
     (gpu1.status = "running" ∨ gpu1.status = "paused" ∨ gpu1.status = "stopped")) :=
  ⟨List.Mem.head _, dashboard_status_invariant [] gpu1 (List.Mem.head _)⟩

/-- C7: for every supported gpu_type and every positive hours value, the
platform cost is strictly below the provider cost. -/
theorem platform_cost_lt_provider_cost (g : GpuType) (h : ℚ) (hp : 0 < h) :
    ourCost g h < awsCost g h := by
  unfold ourCost awsCost
  cases g <;>
    exact mul_lt_mul_of_pos_left (by norm_num [gpuPrices]) hp

/-- Witness for C7 at gpu_type = T4 and hours = 1. -/
theorem platform_cost_lt_provider_cost_witness :
    (0 : ℚ) < 1 ∧ ourCost GpuType.T4 1 < awsCost GpuType.T4 1 :=
  ⟨by norm_num, platform_cost_lt_provider_cost GpuType.T4 1 (by norm_num)⟩

/-- The savings ratio does not depend on the hours value, as long as it is
nonzero: the hours factor cancels between numerator and denominator. -/
theorem savings_ratio_const (g : GpuType) (h : ℚ) (hne : h ≠ 0) :
    savings g h / awsCost g h = savings g 1 / awsCost g 1 := by
  unfold savings awsCost ourCost
  rw [← mul_sub, ← mul_sub, mul_div_mul_left _ _ hne,
    mul_div_mul_left _ _ one_ne_zero]

/-- C8: the rounded savings percentage is the same for any two positive
hours values: it is ratio-based and independent of hours. -/
theorem savingsPercent_independent_of_hours (g : GpuType) (h1 h2 : ℚ)
    (hp1 : 0 < h1) (hp2 : 0 < h2) :
    savingsPercent g h1 = savingsPercent g h2 := by
  unfold savingsPercent
  rw [savings_ratio_const g h1 hp1.ne', savings_ratio_const g h2 hp2.ne']

/-- Witness for C8 at gpu_type = A10G, hours 100 and 200. -/
theorem savingsPercent_independent_of_hours_witness :
    (0 : ℚ) < 100 ∧ (0 : ℚ) < 200 ∧
    savingsPercent GpuType.A10G 100 = savingsPercent GpuType.A10G 200 :=
  ⟨by norm_num, by norm_num,
   savingsPercent_independent_of_hours GpuType.A10G 100 200
     (by norm_num) (by norm_num)⟩

/-- One tick of the landing page timer: setSavings of the previous value,
adding 1 below 70 and returning 70 otherwise. -/
def tick (prev : ℕ) : ℕ := if prev < 70 then prev + 1 else 70

/-- The landing page savings counter after n ticks, starting from 0. -/
def savingsCounter : ℕ → ℕ
  | 0 => 0
  | n + 1 => tick (savingsCounter n)

/-- The landing page savings counter never exceeds 70. -/
theorem savingsCounter_le (n : ℕ) : savingsCounter n ≤ 70 := by
  induction n with
  | zero => simp [savingsCounter]
  | succ n ih =>
      simp only [savingsCounter, tick]
      split <;> omega

/-- C9: each tick is a function of the previous counter value only, adding 1
below 70 and returning 70 otherwise; from initial value 0 the counter is
non-decreasing and never exceeds 70. -/
theorem savings_counter_behavior (n : ℕ) (p : ℕ) :
    savingsCounter (n + 1) = tick (savingsCounter n) ∧
    (p < 70 → tick p = p + 1) ∧
    (¬ p < 70 → tick p = 70) ∧
    savingsCounter 0 = 0 ∧
    savingsCounter n ≤ savingsCounter (n + 1) ∧
    savingsCounter n ≤ 70 := by
  refine ⟨rfl, fun hlt => by simp [tick, hlt], fun hge => by simp [tick, hge],
    rfl, ?_, savingsCounter_le n⟩
  have hle := savingsCounter_le n
  simp only [savingsCounter, tick]
  split <;> omega
